import Mathlib

/-!
Verification of the `bevy_window` plugin-composition crate
(`src/crates/bevy_window/src/lib.rs`).

The crate's `lib.rs` is the authoritative source: it declares the
`WindowPlugin` configuration struct, the `ExitCondition` enum, and the
`Plugin::build` wiring (event registration, primary-window spawning,
exit/close policy system registration, `ANDROID_APP` once-cell).  The
submodules it re-exports (`window.rs`, `system.rs`, `raw_handle.rs`,
`event.rs`) are not part of the provided source slice; the types and
systems they define are modelled from the specification where a claim
depends on them, and each such definition is marked
`Modelled from the spec:` in its doc comment.

Machine integers do not occur on the verified paths; entity identifiers
are modelled as `Nat`.  The `Arc<Mutex<...>>` wrapping of the raw-handle
slot is a concurrency wrapper erased by the shallow embedding: the slot
itself is the `Option` value it guards.
-/

namespace BevyWindow

/-- Modelled from the spec: the tagged window-position variant
`{Automatic, Centered, At(x,y)}` of the window descriptor
(`window.rs` is not under `src/`). -/
inductive WindowPosition where
  | automatic : WindowPosition
  | centered : WindowPosition
  | at (x y : Int) : WindowPosition
  deriving DecidableEq, Repr

/-- Modelled from the spec: the window descriptor component
(`window.rs` is not under `src/`).  Only the presentation fields the
spec names are kept; the claims treat the descriptor as an opaque
payload cloned onto the spawned entity. -/
structure Window where
  title : String
  position : WindowPosition
  decorations : Bool
  resizable : Bool
  visible : Bool
  deriving DecidableEq, Repr

/-- Modelled from the spec: the default descriptor is a centered,
decorated, windowed window. -/
def Window.default : Window :=
  { title := "App", position := .centered, decorations := true,
    resizable := true, visible := true }

/-- Modelled from the spec: the cursor lock mode
(confined / locked / free). -/
inductive CursorLockMode where
  | free : CursorLockMode
  | confined : CursorLockMode
  | locked : CursorLockMode
  deriving DecidableEq, Repr

/-- Modelled from the spec: the cursor-options component
(`window.rs` is not under `src/`): visibility, lock mode,
hit-test pass-through flag. -/
structure CursorOptions where
  visible : Bool
  lockMode : CursorLockMode
  hitTest : Bool
  deriving DecidableEq, Repr

/-- Modelled from the spec: default cursor options are visible and
unlocked. -/
def CursorOptions.default : CursorOptions :=
  { visible := true, lockMode := .free, hitTest := true }

/-- Modelled from the spec: an opaque native window handle.  The spec
treats it as an opaque value; it is represented by a numeric token. -/
structure RawHandle where
  token : Nat
  deriving DecidableEq, Repr

/-- The raw-handle holder component.  In the source it is
`RawHandleWrapperHolder(Arc<Mutex<Option<RawHandleWrapper>>>)`
(constructed at `lib.rs:136` with `Mutex::new(None)`); the shallow
embedding keeps the guarded optional slot and erases the `Arc`/`Mutex`
concurrency wrapper. -/
structure RawHandleWrapperHolder where
  slot : Option RawHandle
  deriving DecidableEq, Repr

/-- Modelled from the spec: `get` is the non-blocking read of the
holder's current value (`raw_handle.rs` is not under `src/`). -/
def RawHandleWrapperHolder.get (h : RawHandleWrapperHolder) : Option RawHandle :=
  h.slot

/-- Modelled from the spec: `set` stores a handle, replacing any
previous value (`raw_handle.rs` is not under `src/`). -/
def RawHandleWrapperHolder.set (_h : RawHandleWrapperHolder) (v : RawHandle) :
    RawHandleWrapperHolder :=
  { slot := some v }

/-- The holder as constructed by `WindowPlugin::build` at `lib.rs:136`:
`RawHandleWrapperHolder(Arc::new(Mutex::new(None)))`. -/
def RawHandleWrapperHolder.new : RawHandleWrapperHolder :=
  { slot := none }

/-- `ExitCondition` from `lib.rs:190-206`. -/
inductive ExitCondition where
  | OnPrimaryClosed : ExitCondition
  | OnAllClosed : ExitCondition
  | DontExit : ExitCondition
  deriving DecidableEq, Repr

/-- `WindowPlugin` from `lib.rs:68-106`. -/
structure WindowPlugin where
  primary_window : Option Window
  primary_cursor_options : Option CursorOptions
  exit_condition : ExitCondition
  close_when_requested : Bool
  deriving DecidableEq, Repr

/-- `impl Default for WindowPlugin` from `lib.rs:56-65`. -/
def WindowPlugin.default : WindowPlugin :=
  { primary_window := some Window.default
    primary_cursor_options := some CursorOptions.default
    exit_condition := .OnAllClosed
    close_when_requested := true }

/-- The three systems `WindowPlugin::build` can register
(`lib.rs:144-156`). -/
inductive SystemLabel where
  | close_when_requested : SystemLabel
  | exit_on_primary_closed : SystemLabel
  | exit_on_all_closed : SystemLabel
  deriving DecidableEq, Repr

/-- The two schedules `WindowPlugin::build` registers systems into:
`Update` (`lib.rs:155`) and `PostUpdate` (`lib.rs:145,148`). -/
inductive Schedule where
  | update : Schedule
  | postUpdate : Schedule
  deriving DecidableEq, Repr

/-- Modelled from the spec: the host scheduler runs `Update` before
`PostUpdate` each tick (the source comment at `lib.rs:154` relies on
this: close-request handling must run before the exit systems). -/
def Schedule.runOrder : Schedule → Nat
  | .update => 0
  | .postUpdate => 1

/-- The exit-policy system that `lib.rs:143-151` registers for a given
exit condition: `exit_on_primary_closed` for `OnPrimaryClosed`,
`exit_on_all_closed` for `OnAllClosed`, none for `DontExit`. -/
def exitSystemFor : ExitCondition → Option SystemLabel
  | .OnPrimaryClosed => some .exit_on_primary_closed
  | .OnAllClosed => some .exit_on_all_closed
  | .DontExit => none

/-- An entity of the world, restricted to the components
`WindowPlugin::build` can attach: the `Window` descriptor, the
`PrimaryWindow` marker, the `RawHandleWrapperHolder`, and
`CursorOptions`. -/
structure Entity where
  window : Option Window
  primary : Bool
  rawHandle : Option RawHandleWrapperHolder
  cursorOptions : Option CursorOptions
  deriving DecidableEq, Repr

/-- The slice of `App` state that `WindowPlugin::build` mutates:
the entity store, the registered event channels, and the system lists
of the `Update` and `PostUpdate` schedules. -/
structure App where
  entities : List Entity
  registeredEvents : List String
  updateSystems : List SystemLabel
  postUpdateSystems : List SystemLabel
  deriving DecidableEq, Repr

/-- A freshly constructed `App`, before any plugin is built. -/
def App.empty : App :=
  { entities := [], registeredEvents := [], updateSystems := [],
    postUpdateSystems := [] }

/-- The event registrations of `lib.rs:111-130`, in source order. -/
def windowEventNames : List String :=
  ["WindowEvent", "WindowResized", "WindowCreated", "WindowClosing",
   "WindowClosed", "WindowCloseRequested", "WindowDestroyed",
   "RequestRedraw", "CursorMoved", "CursorEntered", "CursorLeft", "Ime",
   "WindowFocused", "WindowOccluded", "WindowScaleFactorChanged",
   "WindowBackendScaleFactorChanged", "FileDragAndDrop", "WindowMoved",
   "WindowThemeChanged", "AppLifecycle"]

/-- `app.add_event::<T>()` chain of `lib.rs:111-130`. -/
def addEventsStep (a : App) : App :=
  { a with registeredEvents := a.registeredEvents ++ windowEventNames }

/-- `app.world_mut().spawn(primary_window.clone())` (`lib.rs:133`):
a new entity carrying only the cloned `Window` descriptor. -/
def App.spawnWindow (a : App) (w : Window) : App :=
  { a with entities := a.entities ++
      [{ window := some w, primary := false, rawHandle := none,
         cursorOptions := none }] }

/-- Apply a component update to the most recently spawned entity,
the target of the `entity_commands.insert` calls. -/
def updateLast {α : Type} (f : α → α) : List α → List α
  | [] => []
  | [e] => [f e]
  | e :: es => e :: updateLast f es

/-- `entity_commands.insert((PrimaryWindow, RawHandleWrapperHolder(...)))`
(`lib.rs:134-137`). -/
def App.insertPrimaryAndHolder (a : App) : App :=
  let f : Entity → Entity := fun e =>
    { e with primary := true, rawHandle := some RawHandleWrapperHolder.new }
  { a with entities := updateLast f a.entities }

/-- `entity_commands.insert(primary_cursor_options.clone())`
(`lib.rs:139`). -/
def App.insertCursor (a : App) (c : CursorOptions) : App :=
  let f : Entity → Entity := fun e => { e with cursorOptions := some c }
  { a with entities := updateLast f a.entities }

/-- The `if let Some(primary_window) = &self.primary_window` block of
`lib.rs:132-141`. -/
def spawnPrimaryStep (p : WindowPlugin) (a : App) : App :=
  match p.primary_window with
  | none => a
  | some w =>
    let a1 := a.spawnWindow w
    let a2 := a1.insertPrimaryAndHolder
    match p.primary_cursor_options with
    | some c => a2.insertCursor c
    | none => a2

/-- The `match self.exit_condition` block of `lib.rs:143-151`:
`OnPrimaryClosed` adds `exit_on_primary_closed` to `PostUpdate`,
`OnAllClosed` adds `exit_on_all_closed` to `PostUpdate`,
`DontExit` adds nothing. -/
def exitConditionStep (p : WindowPlugin) (a : App) : App :=
  match p.exit_condition with
  | .OnPrimaryClosed =>
    { a with postUpdateSystems :=
        a.postUpdateSystems ++ [.exit_on_primary_closed] }
  | .OnAllClosed =>
    { a with postUpdateSystems :=
        a.postUpdateSystems ++ [.exit_on_all_closed] }
  | .DontExit => a

/-- The `if self.close_when_requested` block of `lib.rs:153-156`:
adds `close_when_requested` to `Update`. -/
def closeWhenRequestedStep (p : WindowPlugin) (a : App) : App :=
  if p.close_when_requested then
    { a with updateSystems := a.updateSystems ++ [.close_when_requested] }
  else a

/-- `WindowPlugin::build` (`lib.rs:109-185`), in source order.  The
`bevy_reflect` type registrations (`lib.rs:159-184`) are feature-gated
reflection metadata with no effect on the state modelled here and are
omitted. -/
def build (p : WindowPlugin) (a : App) : App :=
  closeWhenRequestedStep p (exitConditionStep p (spawnPrimaryStep p (addEventsStep a)))

/-- The intermediate `App` states traversed by `WindowPlugin::build`,
in order: the input, the state after event registration, each state of
the spawn/insert sequence of `lib.rs:132-141` when a primary window is
configured, the state after exit-system registration, and the final
state after close-system registration. -/
def buildStates (p : WindowPlugin) (a : App) : List App :=
  let a1 := addEventsStep a
  let spawnList : List App :=
    match p.primary_window with
    | none => []
    | some w =>
      let s1 := a1.spawnWindow w
      let s2 := s1.insertPrimaryAndHolder
      match p.primary_cursor_options with
      | some c => [s1, s2, s2.insertCursor c]
      | none => [s1, s2]
  let a2 := spawnPrimaryStep p a1
  let a3 := exitConditionStep p a2
  a :: a1 :: (spawnList ++ [a3, closeWhenRequestedStep p a3])

/-- The number of entities carrying the `PrimaryWindow` marker. -/
def primaryCount (a : App) : Nat :=
  (a.entities.filter (fun e => e.primary)).length

/-! ## Exit/close policy engine

`system.rs` is not under `src/`; the policy systems it defines are
modelled from the specification (§4.4/§4.5) below and every claim
settled against them is marked `spec-modelled`. -/

/-- A live window entity as seen by the exit policies: its entity
identifier and whether it carries the `PrimaryWindow` marker. -/
structure LiveWindow where
  id : Nat
  primary : Bool
  deriving DecidableEq, Repr

/-- Modelled from the spec: processing a tick's `Closed` events
despawns the referenced window entities from the entity store. -/
def processClosed (live : List LiveWindow) (closed : List Nat) : List LiveWindow :=
  live.filter (fun w => ¬ w.id ∈ closed)

/-- Modelled from the spec (§4.5): whether the exit policy signals
application exit on a tick, given the live windows before and after
this tick's `Closed` events were processed.
`OnAllClosed` signals when zero windows remain after processing.
`OnPrimaryClosed` signals when a window carrying the `PrimaryWindow`
marker was live and no such window remains after processing (per §4.5
the mode never fires when no primary window was ever configured).
`DontExit` never signals. -/
def exitCheck (cond : ExitCondition) (liveBefore liveAfterTick : List LiveWindow) :
    Prop :=
  match cond with
  | .OnAllClosed => liveAfterTick = []
  | .OnPrimaryClosed =>
    (∃ w ∈ liveBefore, w.primary = true) ∧ ∀ w ∈ liveAfterTick, w.primary = false
  | .DontExit => False

instance (cond : ExitCondition) (lb la : List LiveWindow) :
    Decidable (exitCheck cond lb la) := by
  unfold exitCheck
  cases cond <;> infer_instance

/-- Modelled from the spec: a run of the application.  Each tick
consumes one list of `Closed` events, despawns the referenced windows,
and then runs the exit check; when exit is signaled the main loop
terminates, so the result is the index of the tick on which the single
exit signal was produced, or `none` when the run ends with no signal.
-/
def runTicks (cond : ExitCondition) (live : List LiveWindow) :
    List (List Nat) → Option Nat
  | [] => none
  | closed :: rest =>
    let live2 := processClosed live closed
    if exitCheck cond live live2 then some 0
    else (runTicks cond live2 rest).map (· + 1)

/-- The live windows after the given tick inputs have been processed. -/
def liveAfter (live : List LiveWindow) (ticks : List (List Nat)) : List LiveWindow :=
  ticks.foldl processClosed live

/-- Modelled from the spec: the monotonic lifecycle substate of a
window descriptor (§3). -/
inductive ClosingState where
  | present : ClosingState
  | closeRequested : ClosingState
  | closing : ClosingState
  | closed : ClosingState
  deriving DecidableEq, Repr

/-- A window entity as seen by the close-request policy: its entity
identifier and its lifecycle substate. -/
structure WindowEnt where
  id : Nat
  state : ClosingState
  deriving DecidableEq, Repr

/-- Modelled from the spec (§4.4/§9): honoring a close request moves a
window that has not yet committed to closing into the `closing` state;
backward transitions are ignored. -/
def honorCloseRequest : ClosingState → ClosingState
  | .present => .closing
  | .closeRequested => .closing
  | .closing => .closing
  | .closed => .closed

/-- Modelled from the spec (§4.4): the `close_when_requested` system.
For each `CloseRequested` event observed this tick, the referenced
window's descriptor transitions toward `closing`; windows without a
request are untouched. -/
def closeWhenRequestedSys (requests : List Nat) (ws : List WindowEnt) :
    List WindowEnt :=
  ws.map (fun w =>
    if w.id ∈ requests then { w with state := honorCloseRequest w.state } else w)

/-- Modelled from the spec: the effect of one registered system on the
window lifecycle state.  Only `close_when_requested` mutates window
state; the exit systems only read it. -/
def applySystem (l : SystemLabel) (requests : List Nat) (ws : List WindowEnt) :
    List WindowEnt :=
  match l with
  | .close_when_requested => closeWhenRequestedSys requests ws
  | .exit_on_primary_closed => ws
  | .exit_on_all_closed => ws

/-- Modelled from the spec: the scheduler runs the registered systems
of a schedule in order, threading the window state through them. -/
def runSystems (labels : List SystemLabel) (requests : List Nat)
    (ws : List WindowEnt) : List WindowEnt :=
  labels.foldl (fun ws l => applySystem l requests ws) ws

/-! ## Process-wide once-initialized handle -/

/-- Modelled from the spec: the host platform's application-lifecycle
object (`android_activity::AndroidApp`), opaque to this crate. -/
structure AndroidApp where
  token : Nat
  deriving DecidableEq, Repr

/-- Modelled from the spec (§6/§9): a process-wide set-once cell
(`std::sync::OnceLock` in the source at `lib.rs:211`): optional value,
initialized at most once, readable thereafter. -/
structure OnceLockModel (α : Type) where
  value : Option α
  deriving DecidableEq, Repr

/-- An uninitialized once-cell (`OnceLock::new()`, `lib.rs:212`). -/
def OnceLockModel.new {α : Type} : OnceLockModel α :=
  { value := none }

/-- Modelled from the spec: an initialization attempt.  It succeeds
(returns `true`) and fixes the value only when the cell is empty; a
later attempt leaves the cell unchanged and reports failure. -/
def OnceLockModel.setOnce {α : Type} (c : OnceLockModel α) (x : α) :
    OnceLockModel α × Bool :=
  match c.value with
  | some _ => (c, false)
  | none => ({ value := some x }, true)

/-- Reading the cell. -/
def OnceLockModel.get {α : Type} (c : OnceLockModel α) : Option α :=
  c.value

/-- A sequence of initialization attempts, in order. -/
def OnceLockModel.initAll {α : Type} (c : OnceLockModel α) (xs : List α) :
    OnceLockModel α :=
  xs.foldl (fun c x => (c.setOnce x).1) c

/-- `ANDROID_APP` from `lib.rs:210-212`: the process-wide once-cell,
starting uninitialized. -/
def ANDROID_APP : OnceLockModel AndroidApp :=
  OnceLockModel.new

/-! ## Helper lemmas -/

@[simp]
theorem addEventsStep_entities (a : App) : (addEventsStep a).entities = a.entities :=
  rfl

@[simp]
theorem addEventsStep_updateSystems (a : App) :
    (addEventsStep a).updateSystems = a.updateSystems :=
  rfl

@[simp]
theorem addEventsStep_postUpdateSystems (a : App) :
    (addEventsStep a).postUpdateSystems = a.postUpdateSystems :=
  rfl

@[simp]
theorem spawnPrimaryStep_updateSystems (p : WindowPlugin) (a : App) :
    (spawnPrimaryStep p a).updateSystems = a.updateSystems := by
  unfold spawnPrimaryStep
  cases p.primary_window <;> [rfl; (cases p.primary_cursor_options <;> rfl)]

@[simp]
theorem spawnPrimaryStep_postUpdateSystems (p : WindowPlugin) (a : App) :
    (spawnPrimaryStep p a).postUpdateSystems = a.postUpdateSystems := by
  unfold spawnPrimaryStep
  cases p.primary_window <;> [rfl; (cases p.primary_cursor_options <;> rfl)]

@[simp]
theorem exitConditionStep_entities (p : WindowPlugin) (a : App) :
    (exitConditionStep p a).entities = a.entities := by
  unfold exitConditionStep
  cases p.exit_condition <;> rfl

@[simp]
theorem exitConditionStep_updateSystems (p : WindowPlugin) (a : App) :
    (exitConditionStep p a).updateSystems = a.updateSystems := by
  unfold exitConditionStep
  cases p.exit_condition <;> rfl

@[simp]
theorem closeWhenRequestedStep_entities (p : WindowPlugin) (a : App) :
    (closeWhenRequestedStep p a).entities = a.entities := by
  unfold closeWhenRequestedStep
  split <;> rfl

@[simp]
theorem closeWhenRequestedStep_postUpdateSystems (p : WindowPlugin) (a : App) :
    (closeWhenRequestedStep p a).postUpdateSystems = a.postUpdateSystems := by
  unfold closeWhenRequestedStep
  split <;> rfl

theorem closeWhenRequestedStep_updateSystems (p : WindowPlugin) (a : App) :
    (closeWhenRequestedStep p a).updateSystems =
      if p.close_when_requested then a.updateSystems ++ [.close_when_requested]
      else a.updateSystems := by
  unfold closeWhenRequestedStep
  split <;> rfl

theorem build_updateSystems (p : WindowPlugin) (a : App) :
    (build p a).updateSystems =
      if p.close_when_requested then a.updateSystems ++ [.close_when_requested]
      else a.updateSystems := by
  simp [build, closeWhenRequestedStep_updateSystems]

theorem build_postUpdateSystems (p : WindowPlugin) (a : App) :
    (build p a).postUpdateSystems =
      a.postUpdateSystems ++
        (match exitSystemFor p.exit_condition with
         | some l => [l]
         | none => []) := by
  cases h : p.exit_condition <;>
    simp [build, exitConditionStep, exitSystemFor, h]

theorem updateLast_append {α : Type} (f : α → α) (l : List α) (e : α) :
    updateLast f (l ++ [e]) = l ++ [f e] := by
  induction l with
  | nil => rfl
  | cons x xs ih =>
    cases xs with
    | nil => rfl
    | cons y ys =>
      simp only [List.cons_append] at ih ⊢
      rw [updateLast, ih]
      simp

theorem build_entities (p : WindowPlugin) (a : App) :
    (build p a).entities = (spawnPrimaryStep p (addEventsStep a)).entities := by
  simp [build]

theorem spawnPrimaryStep_entities_none (p : WindowPlugin) (a : App)
    (h : p.primary_window = none) : (spawnPrimaryStep p a).entities = a.entities := by
  simp [spawnPrimaryStep, h]

theorem spawnPrimaryStep_entities_some (p : WindowPlugin) (a : App) (w : Window)
    (h : p.primary_window = some w) :
    (spawnPrimaryStep p a).entities = a.entities ++
      [{ window := some w, primary := true,
         rawHandle := some RawHandleWrapperHolder.new,
         cursorOptions := p.primary_cursor_options }] := by
  unfold spawnPrimaryStep
  rw [h]
  cases hc : p.primary_cursor_options with
  | none =>
    simp [App.spawnWindow, App.insertPrimaryAndHolder, updateLast_append]
  | some c =>
    simp [App.spawnWindow, App.insertPrimaryAndHolder, App.insertCursor,
      updateLast_append]

theorem length_filter_updateLast_le {α : Type} (pred : α → Bool) (f : α → α) :
    ∀ l : List α, ((updateLast f l).filter pred).length ≤ (l.filter pred).length + 1
  | [] => by simp [updateLast]
  | [x] => by
    show (([f x]).filter pred).length ≤ (([x]).filter pred).length + 1
    cases hfx : pred (f x) <;> cases hx : pred x <;>
      simp [List.filter_cons, hfx, hx]
  | x :: y :: l => by
    have ih := length_filter_updateLast_le pred f (y :: l)
    show ((x :: updateLast f (y :: l)).filter pred).length ≤
      ((x :: y :: l).filter pred).length + 1
    cases hx : pred x <;> simp [List.filter_cons, hx] at ih ⊢ <;> omega

theorem length_filter_updateLast_eq {α : Type} (pred : α → Bool) (f : α → α)
    (hf : ∀ x, pred (f x) = pred x) :
    ∀ l : List α, ((updateLast f l).filter pred).length = (l.filter pred).length
  | [] => rfl
  | [x] => by
    show (([f x]).filter pred).length = (([x]).filter pred).length
    cases hx : pred x <;> simp [List.filter_cons, hf, hx]
  | x :: y :: l => by
    have ih := length_filter_updateLast_eq pred f hf (y :: l)
    show ((x :: updateLast f (y :: l)).filter pred).length =
      ((x :: y :: l).filter pred).length
    cases hx : pred x <;> simp [List.filter_cons, hx, ih]

theorem primaryCount_addEventsStep (a : App) :
    primaryCount (addEventsStep a) = primaryCount a :=
  rfl

theorem primaryCount_spawnWindow (a : App) (w : Window) :
    primaryCount (a.spawnWindow w) = primaryCount a := by
  simp [primaryCount, App.spawnWindow, List.filter_append, List.filter_cons]

theorem primaryCount_insertPrimaryAndHolder (a : App) :
    primaryCount a.insertPrimaryAndHolder ≤ primaryCount a + 1 := by
  simpa [primaryCount, App.insertPrimaryAndHolder] using
    length_filter_updateLast_le (fun e => e.primary) _ a.entities

theorem primaryCount_insertCursor (a : App) (c : CursorOptions) :
    primaryCount (a.insertCursor c) = primaryCount a := by
  have h := length_filter_updateLast_eq (fun e => e.primary)
    (fun e => { e with cursorOptions := some c }) (fun _ => rfl) a.entities
  simpa [primaryCount, App.insertCursor] using h

theorem primaryCount_exitConditionStep (p : WindowPlugin) (a : App) :
    primaryCount (exitConditionStep p a) = primaryCount a := by
  simp [primaryCount, exitConditionStep_entities]

theorem primaryCount_closeWhenRequestedStep (p : WindowPlugin) (a : App) :
    primaryCount (closeWhenRequestedStep p a) = primaryCount a := by
  simp [primaryCount, closeWhenRequestedStep_entities]

theorem primaryCount_spawnPrimaryStep (p : WindowPlugin) (a : App) :
    primaryCount (spawnPrimaryStep p a) ≤ primaryCount a + 1 := by
  unfold spawnPrimaryStep
  cases p.primary_window with
  | none => exact Nat.le_succ _
  | some w =>
    cases p.primary_cursor_options with
    | none =>
      calc primaryCount (a.spawnWindow w).insertPrimaryAndHolder
          ≤ primaryCount (a.spawnWindow w) + 1 :=
            primaryCount_insertPrimaryAndHolder _
        _ = primaryCount a + 1 := by rw [primaryCount_spawnWindow]
    | some c =>
      calc primaryCount ((a.spawnWindow w).insertPrimaryAndHolder.insertCursor c)
          = primaryCount (a.spawnWindow w).insertPrimaryAndHolder :=
            primaryCount_insertCursor _ c
        _ ≤ primaryCount (a.spawnWindow w) + 1 :=
            primaryCount_insertPrimaryAndHolder _
        _ = primaryCount a + 1 := by rw [primaryCount_spawnWindow]

theorem runTicks_nil (cond : ExitCondition) (live : List LiveWindow) :
    runTicks cond live [] = none :=
  rfl

theorem runTicks_cons (cond : ExitCondition) (live : List LiveWindow)
    (c : List Nat) (rest : List (List Nat)) :
    runTicks cond live (c :: rest) =
      if exitCheck cond live (processClosed live c) then some 0
      else (runTicks cond (processClosed live c) rest).map (· + 1) :=
  rfl

@[simp]
theorem liveAfter_nil (live : List LiveWindow) : liveAfter live [] = live :=
  rfl

@[simp]
theorem liveAfter_cons (live : List LiveWindow) (c : List Nat)
    (ticks : List (List Nat)) :
    liveAfter live (c :: ticks) = liveAfter (processClosed live c) ticks :=
  rfl

theorem mem_processClosed (w : LiveWindow) (live : List LiveWindow)
    (closed : List Nat) :
    w ∈ processClosed live closed ↔ w ∈ live ∧ w.id ∉ closed := by
  simp [processClosed]

theorem mem_of_mem_processClosed (w : LiveWindow) (live : List LiveWindow)
    (closed : List Nat) (h : w ∈ processClosed live closed) : w ∈ live :=
  ((mem_processClosed w live closed).mp h).1

/-- The generic first-fire characterization of a run: exit is signaled
on tick `t` exactly when the exit check holds after processing tick
`t`'s events and held on no earlier tick.  Because the run terminates
at the first signal, `some t` also expresses that the signal is
produced exactly once. -/
theorem runTicks_eq_some_iff (cond : ExitCondition) :
    ∀ (ticks : List (List Nat)) (live : List LiveWindow) (t : Nat),
      runTicks cond live ticks = some t ↔
        (t < ticks.length ∧
         exitCheck cond (liveAfter live (ticks.take t))
           (liveAfter live (ticks.take (t + 1))) ∧
         ∀ s : Nat, s < t →
           ¬ exitCheck cond (liveAfter live (ticks.take s))
               (liveAfter live (ticks.take (s + 1))))
  | [], live, t => by simp [runTicks_nil]
  | c :: rest, live, t => by
    rw [runTicks_cons]
    by_cases hf : exitCheck cond live (processClosed live c)
    · rw [if_pos hf]
      cases t with
      | zero =>
        simp only [Option.some.injEq, List.take_succ_cons, List.take_zero,
          liveAfter_cons, liveAfter_nil]
        constructor
        · intro _
          exact ⟨by simp, hf, fun s hs => absurd hs (Nat.not_lt_zero s)⟩
        · intro _
          trivial
      | succ k =>
        constructor
        · intro h
          exact absurd h (by simp)
        · rintro ⟨_, _, hnone⟩
          have h0 := hnone 0 (Nat.succ_pos k)
          simp only [List.take_succ_cons, List.take_zero, liveAfter_cons,
            liveAfter_nil] at h0
          exact absurd hf h0
    · rw [if_neg hf]
      cases t with
      | zero =>
        constructor
        · intro h
          rcases Option.map_eq_some'.mp h with ⟨a, _, ha⟩
          exact absurd ha (Nat.succ_ne_zero a)
        · rintro ⟨_, hfire, _⟩
          simp only [List.take_succ_cons, List.take_zero, liveAfter_cons,
            liveAfter_nil] at hfire
          exact absurd hfire hf
      | succ k =>
        have ih := runTicks_eq_some_iff cond rest (processClosed live c) k
        have hmap : (runTicks cond (processClosed live c) rest).map (· + 1) =
            some (k + 1) ↔ runTicks cond (processClosed live c) rest = some k := by
          cases hr : runTicks cond (processClosed live c) rest <;> simp [hr]
        rw [hmap, ih]
        constructor
        · rintro ⟨h1, h2, h3⟩
          refine ⟨by simpa using Nat.succ_lt_succ h1, ?_, ?_⟩
          · simpa only [List.take_succ_cons, liveAfter_cons] using h2
          · intro s hs
            cases s with
            | zero =>
              simpa only [List.take_succ_cons, List.take_zero, liveAfter_cons,
                liveAfter_nil] using hf
            | succ j =>
              have := h3 j (Nat.lt_of_succ_lt_succ hs)
              simpa only [List.take_succ_cons, liveAfter_cons] using this
        · rintro ⟨h1, h2, h3⟩
          refine ⟨by simpa using Nat.lt_of_succ_lt_succ h1, ?_, ?_⟩
          · simpa only [List.take_succ_cons, liveAfter_cons] using h2
          · intro s hs
            have := h3 (s + 1) (Nat.succ_lt_succ hs)
            simpa only [List.take_succ_cons, liveAfter_cons] using this

theorem runTicks_dontExit :
    ∀ (live : List LiveWindow) (ticks : List (List Nat)),
      runTicks .DontExit live ticks = none
  | _, [] => rfl
  | live, c :: rest => by
    have hnf : ¬ exitCheck .DontExit live (processClosed live c) := fun h => h
    rw [runTicks_cons, if_neg hnf, runTicks_dontExit (processClosed live c) rest]
    rfl

theorem OnceLockModel.initAll_stable {α : Type} (c : OnceLockModel α) (v : α)
    (h : c.value = some v) : ∀ xs : List α, c.initAll xs = c
  | [] => rfl
  | y :: ys => by
    have h1 : (c.setOnce y).1 = c := by simp [OnceLockModel.setOnce, h]
    show OnceLockModel.initAll (c.setOnce y).1 ys = c
    rw [h1]
    exact OnceLockModel.initAll_stable c v h ys

/-! ## Claim theorems -/

/-- Claim C5: for every plugin configuration, `build` spawns no entity
when the primary-window descriptor is `None`, and spawns exactly one
entity when it is `Some w`, carrying the `Window` descriptor `w`, the
`PrimaryWindow` marker, the raw-handle holder (initialized empty), and
the cursor-options component exactly when one is configured. -/
theorem build_spawns_primary_entity (p : WindowPlugin) (a : App) :
    (p.primary_window = none → (build p a).entities = a.entities) ∧
    (∀ w : Window, p.primary_window = some w →
      (build p a).entities = a.entities ++
        [{ window := some w, primary := true,
           rawHandle := some RawHandleWrapperHolder.new,
           cursorOptions := p.primary_cursor_options }]) := by
  constructor
  · intro h
    rw [build_entities, spawnPrimaryStep_entities_none p _ h, addEventsStep_entities]
  · intro w h
    rw [build_entities, spawnPrimaryStep_entities_some p _ w h, addEventsStep_entities]

/-- Witness for C5: the default configuration on a fresh app spawns
exactly the one primary entity. -/
theorem build_spawns_primary_entity_witness :
    (build WindowPlugin.default App.empty).entities =
      [{ window := some Window.default, primary := true,
         rawHandle := some RawHandleWrapperHolder.new,
         cursorOptions := some CursorOptions.default }] := by
  have h := (build_spawns_primary_entity WindowPlugin.default App.empty).2
    Window.default rfl
  simpa [App.empty, WindowPlugin.default] using h

/-- Claim C10: when the primary-window descriptor is `None`, the
configured primary cursor options have no effect: `build` leaves the
entity store untouched and produces the same `App` for every value of
`primary_cursor_options`. -/
theorem no_primary_cursor_options_no_effect (p : WindowPlugin) (a : App)
    (h : p.primary_window = none) :
    (build p a).entities = a.entities ∧
    ∀ opts : Option CursorOptions,
      build { p with primary_cursor_options := opts } a = build p a := by
  constructor
  · rw [build_entities, spawnPrimaryStep_entities_none p _ h, addEventsStep_entities]
  · intro opts
    have hs : spawnPrimaryStep { p with primary_cursor_options := opts }
        (addEventsStep a) = spawnPrimaryStep p (addEventsStep a) := by
      simp [spawnPrimaryStep, h]
    unfold build
    rw [hs]
    rfl

/-- Witness for C10: with no primary window configured, dropping the
cursor options changes nothing. -/
theorem no_primary_cursor_options_no_effect_witness :
    (build { primary_window := none,
             primary_cursor_options := some CursorOptions.default,
             exit_condition := .OnAllClosed, close_when_requested := true }
       App.empty).entities = [] ∧
    build { primary_window := none, primary_cursor_options := none,
            exit_condition := .OnAllClosed, close_when_requested := true }
      App.empty =
    build { primary_window := none,
            primary_cursor_options := some CursorOptions.default,
            exit_condition := .OnAllClosed, close_when_requested := true }
      App.empty := by
  have h := no_primary_cursor_options_no_effect
    { primary_window := none, primary_cursor_options := some CursorOptions.default,
      exit_condition := .OnAllClosed, close_when_requested := true }
    App.empty rfl
  exact ⟨h.1, h.2 none⟩

/-- Claim C8: reading the raw-handle holder before any set returns
`none` (the "not yet available" value), and for every handle value,
setting the holder and immediately reading it returns that value. -/
theorem raw_handle_holder_roundtrip :
    RawHandleWrapperHolder.new.get = none ∧
    ∀ (s : RawHandleWrapperHolder) (h : RawHandle), (s.set h).get = some h :=
  ⟨rfl, fun _ _ => rfl⟩

/-- Claim C9: the process-wide `ANDROID_APP` once-cell is initialized
at most once: after a first initialization with `x`, any sequence of
later attempts leaves the stored value at `x` and every read observes
`x`; an attempt on an already-initialized cell leaves it unchanged and
reports failure. -/
theorem android_app_initialized_at_most_once (x : AndroidApp)
    (xs : List AndroidApp) :
    (OnceLockModel.initAll ANDROID_APP (x :: xs)).get = some x ∧
    ∀ (c : OnceLockModel AndroidApp) (v y : AndroidApp),
      c.get = some v → c.setOnce y = (c, false) := by
  constructor
  · show (OnceLockModel.initAll (ANDROID_APP.setOnce x).1 xs).get = some x
    have h1 : (ANDROID_APP.setOnce x).1 =
        ({ value := some x } : OnceLockModel AndroidApp) := rfl
    rw [h1, OnceLockModel.initAll_stable _ x rfl xs]
    rfl
  · intro c v y hv
    have hv' : c.value = some v := hv
    simp [OnceLockModel.setOnce, hv']

/-- Witness for C9: initializing with token 1 then attempting token 2
leaves token 1 stored; a second attempt reports failure. -/
theorem android_app_initialized_at_most_once_witness :
    (OnceLockModel.initAll ANDROID_APP [⟨1⟩, ⟨2⟩]).get = some ⟨1⟩ ∧
    OnceLockModel.setOnce { value := some (⟨1⟩ : AndroidApp) } ⟨2⟩ =
      ({ value := some ⟨1⟩ }, false) := by
  have h := android_app_initialized_at_most_once ⟨1⟩ [⟨2⟩]
  exact ⟨h.1, h.2 { value := some ⟨1⟩ } ⟨1⟩ ⟨2⟩ rfl⟩

/-- Claim C1 counterexample: with `close_when_requested` enabled and
exit condition `OnAllClosed`, the two systems are NOT registered in
the same phase.  `close_when_requested` goes to the `Update` schedule
(`lib.rs:155`) while `exit_on_all_closed` goes to the `PostUpdate`
schedule (`lib.rs:148`), so no single schedule contains both. -/
theorem close_and_exit_not_same_phase :
    ¬ ((SystemLabel.close_when_requested ∈
          (build { primary_window := none, primary_cursor_options := none,
                   exit_condition := .OnAllClosed, close_when_requested := true }
             App.empty).updateSystems ∧
        SystemLabel.exit_on_all_closed ∈
          (build { primary_window := none, primary_cursor_options := none,
                   exit_condition := .OnAllClosed, close_when_requested := true }
             App.empty).updateSystems) ∨
       (SystemLabel.close_when_requested ∈
          (build { primary_window := none, primary_cursor_options := none,
                   exit_condition := .OnAllClosed, close_when_requested := true }
             App.empty).postUpdateSystems ∧
        SystemLabel.exit_on_all_closed ∈
          (build { primary_window := none, primary_cursor_options := none,
                   exit_condition := .OnAllClosed, close_when_requested := true }
             App.empty).postUpdateSystems)) := by
  decide

/-- Claim C1 (amended): when `close_when_requested` is enabled and the
exit condition is not `DontExit`, the close-request-handling system is
registered in the `Update` schedule and the exit-checking system in the
`PostUpdate` schedule — a strictly later phase — so close-request
handling still runs strictly before exit checking, but across two
phases rather than within one. -/
theorem close_before_exit_across_phases (p : WindowPlugin) (a : App)
    (hc : p.close_when_requested = true) (he : p.exit_condition ≠ .DontExit) :
    SystemLabel.close_when_requested ∈ (build p a).updateSystems ∧
    (∃ ex : SystemLabel, exitSystemFor p.exit_condition = some ex ∧
      ex ∈ (build p a).postUpdateSystems) ∧
    Schedule.runOrder .update < Schedule.runOrder .postUpdate := by
  refine ⟨?_, ?_, by decide⟩
  · rw [build_updateSystems, if_pos hc]
    simp
  · rw [build_postUpdateSystems]
    cases hec : p.exit_condition with
    | OnPrimaryClosed =>
      refine ⟨.exit_on_primary_closed, rfl, ?_⟩
      simp [exitSystemFor]
    | OnAllClosed =>
      refine ⟨.exit_on_all_closed, rfl, ?_⟩
      simp [exitSystemFor]
    | DontExit => exact absurd hec he

/-- Witness for the amended C1 at the default configuration. -/
theorem close_before_exit_across_phases_witness :
    SystemLabel.close_when_requested ∈
      (build WindowPlugin.default App.empty).updateSystems ∧
    (∃ ex : SystemLabel,
      exitSystemFor WindowPlugin.default.exit_condition = some ex ∧
      ex ∈ (build WindowPlugin.default App.empty).postUpdateSystems) ∧
    Schedule.runOrder .update < Schedule.runOrder .postUpdate :=
  close_before_exit_across_phases WindowPlugin.default App.empty rfl (by decide)

/-- Claim C4: when the `close_when_requested` toggle is true, `build`
registers the `close_when_requested` system (in `Update`); when it is
false, no close-handling system is registered anywhere, and running the
registered systems of either schedule leaves every window's lifecycle
state untouched for every batch of `CloseRequested` events, so no
automatic close transition ever occurs. -/
theorem close_when_requested_toggle (p : WindowPlugin) (a : App)
    (hu : a.updateSystems = []) (hp : a.postUpdateSystems = []) :
    (p.close_when_requested = true →
      SystemLabel.close_when_requested ∈ (build p a).updateSystems) ∧
    (p.close_when_requested = false →
      SystemLabel.close_when_requested ∉ (build p a).updateSystems ∧
      SystemLabel.close_when_requested ∉ (build p a).postUpdateSystems ∧
      ∀ (requests : List Nat) (ws : List WindowEnt),
        runSystems ((build p a).updateSystems) requests ws = ws ∧
        runSystems ((build p a).postUpdateSystems) requests ws = ws) := by
  have hupd := build_updateSystems p a
  have hpost := build_postUpdateSystems p a
  rw [hu] at hupd
  rw [hp] at hpost
  constructor
  · intro hc
    rw [hupd, if_pos hc]
    simp
  · intro hc
    have hupd' : (build p a).updateSystems = [] := by
      rw [hupd, if_neg (by simp [hc])]
    refine ⟨by simp [hupd'], ?_, ?_⟩
    · rw [hpost]
      cases hec : p.exit_condition <;> simp [exitSystemFor]
    · intro requests ws
      constructor
      · rw [hupd']
        rfl
      · rw [hpost]
        cases hec : p.exit_condition <;>
          simp [exitSystemFor, runSystems, applySystem]

/-- Witness for C4: with the toggle on the system is registered; with
it off nothing is registered and a pending close request transitions
no window. -/
theorem close_when_requested_toggle_witness :
    SystemLabel.close_when_requested ∈
      (build WindowPlugin.default App.empty).updateSystems ∧
    SystemLabel.close_when_requested ∉
      (build { primary_window := none, primary_cursor_options := none,
               exit_condition := .DontExit, close_when_requested := false }
         App.empty).updateSystems ∧
    runSystems
      ((build { primary_window := none, primary_cursor_options := none,
                exit_condition := .DontExit, close_when_requested := false }
          App.empty).updateSystems) [0] [{ id := 0, state := .present }] =
      [{ id := 0, state := .present }] := by
  have h1 := (close_when_requested_toggle WindowPlugin.default App.empty rfl rfl).1 rfl
  have h2 := (close_when_requested_toggle
    { primary_window := none, primary_cursor_options := none,
      exit_condition := .DontExit, close_when_requested := false }
    App.empty rfl rfl).2 rfl
  exact ⟨h1, h2.1, (h2.2.2 [0] [{ id := 0, state := .present }]).1⟩

/-- Claim C7: under `DontExit`, `build` registers no exit-policy
system (the `PostUpdate` schedule stays empty and neither exit system
appears in `Update`), and the modelled run produces no exit signal for
any initial windows and any sequence of `Closed` events. -/
theorem dont_exit_never_signals (p : WindowPlugin) (a : App)
    (he : p.exit_condition = .DontExit)
    (hu : a.updateSystems = []) (hp : a.postUpdateSystems = []) :
    (build p a).postUpdateSystems = [] ∧
    SystemLabel.exit_on_primary_closed ∉ (build p a).updateSystems ∧
    SystemLabel.exit_on_all_closed ∉ (build p a).updateSystems ∧
    ∀ (live : List LiveWindow) (ticks : List (List Nat)),
      runTicks .DontExit live ticks = none := by
  have hpost := build_postUpdateSystems p a
  rw [hp, he] at hpost
  have hupd := build_updateSystems p a
  rw [hu] at hupd
  refine ⟨by simpa [exitSystemFor] using hpost, ?_, ?_,
    fun live ticks => runTicks_dontExit live ticks⟩
  · rw [hupd]
    split <;> simp
  · rw [hupd]
    split <;> simp

/-- Witness for C7: a `DontExit` configuration registers nothing in
`PostUpdate` and a run that closes the only window signals no exit. -/
theorem dont_exit_never_signals_witness :
    (build { primary_window := none, primary_cursor_options := none,
             exit_condition := .DontExit, close_when_requested := true }
       App.empty).postUpdateSystems = [] ∧
    runTicks .DontExit [{ id := 0, primary := true }] [[0]] = none := by
  have h := dont_exit_never_signals
    { primary_window := none, primary_cursor_options := none,
      exit_condition := .DontExit, close_when_requested := true }
    App.empty rfl rfl rfl
  exact ⟨h.1, h.2.2.2 [{ id := 0, primary := true }] [[0]]⟩

/-- Claim C2: under `OnAllClosed`, for a run starting with a nonempty
set of live windows, the exit signal is produced (exactly once, since
the run terminates at the signal) on tick `t` if and only if processing
tick `t`'s `Closed` events reduces the live-window count to zero: some
window was still live before tick `t`, none is live after it, and no
earlier tick had emptied the set. -/
theorem exit_on_all_closed_exact_tick (live : List LiveWindow)
    (ticks : List (List Nat)) (t : Nat) (hN : live ≠ []) :
    runTicks .OnAllClosed live ticks = some t ↔
      (t < ticks.length ∧
       liveAfter live (ticks.take t) ≠ [] ∧
       liveAfter live (ticks.take (t + 1)) = [] ∧
       ∀ s : Nat, s < t → liveAfter live (ticks.take (s + 1)) ≠ []) := by
  rw [runTicks_eq_some_iff]
  constructor
  · rintro ⟨h1, h2, h3⟩
    have h2' : liveAfter live (ticks.take (t + 1)) = [] := h2
    refine ⟨h1, ?_, h2', fun s hs => h3 s hs⟩
    cases t with
    | zero => simpa using hN
    | succ k => exact h3 k (Nat.lt_succ_self k)
  · rintro ⟨h1, _, h2, h3⟩
    exact ⟨h1, h2, h3⟩

/-- Witness for C2: one window, closed on the first tick — the exit
signal is produced on that tick. -/
theorem exit_on_all_closed_exact_tick_witness :
    runTicks .OnAllClosed [{ id := 0, primary := true }] [[0]] = some 0 := by
  have h := exit_on_all_closed_exact_tick [{ id := 0, primary := true }]
    [[0]] 0 (by decide)
  exact h.mpr (by decide)

/-- Claim C3: under `OnPrimaryClosed` with a primary window configured
(a live window `p` carrying the marker, the only one), the run signals
exit if and only if some tick's `Closed` events reference the primary
window; in particular closing any number of non-primary windows never
produces the exit signal. -/
theorem exit_on_primary_closed_iff_primary_closed :
    ∀ (ticks : List (List Nat)) (live : List LiveWindow) (p : LiveWindow),
      p ∈ live → p.primary = true →
      (∀ w ∈ live, w.primary = true → w = p) →
      ((runTicks .OnPrimaryClosed live ticks).isSome = true ↔
        ∃ c ∈ ticks, p.id ∈ c)
  | [], live, p, hp, hprim, huniq => by simp [runTicks_nil]
  | c :: rest, live, p, hp, hprim, huniq => by
    by_cases hin : p.id ∈ c
    · have hf : exitCheck .OnPrimaryClosed live (processClosed live c) := by
        refine ⟨⟨p, hp, hprim⟩, ?_⟩
        intro w hw
        rcases (mem_processClosed w live c).mp hw with ⟨hwl, hwid⟩
        cases hwpb : w.primary with
        | false => rfl
        | true =>
          have hwe : w = p := huniq w hwl hwpb
          rw [hwe] at hwid
          exact absurd hin hwid
      rw [runTicks_cons, if_pos hf]
      exact iff_of_true rfl ⟨c, List.mem_cons_self c rest, hin⟩
    · have hpin2 : p ∈ processClosed live c :=
        (mem_processClosed p live c).mpr ⟨hp, hin⟩
      have hnf : ¬ exitCheck .OnPrimaryClosed live (processClosed live c) := by
        rintro ⟨_, hall⟩
        have hpf := hall p hpin2
        rw [hprim] at hpf
        simp at hpf
      have huniq2 : ∀ w ∈ processClosed live c, w.primary = true → w = p :=
        fun w hw hwp => huniq w (mem_of_mem_processClosed w live c hw) hwp
      have ih := exit_on_primary_closed_iff_primary_closed rest
        (processClosed live c) p hpin2 hprim huniq2
      rw [runTicks_cons, if_neg hnf]
      have hmap : ((runTicks .OnPrimaryClosed (processClosed live c) rest).map
          (· + 1)).isSome =
          (runTicks .OnPrimaryClosed (processClosed live c) rest).isSome := by
        cases hr : runTicks .OnPrimaryClosed (processClosed live c) rest <;> simp
      rw [hmap, ih]
      constructor
      · rintro ⟨d, hd, hid⟩
        exact ⟨d, List.mem_cons_of_mem c hd, hid⟩
      · rintro ⟨d, hd, hid⟩
        rcases List.mem_cons.mp hd with rfl | hmem
        · exact absurd hid hin
        · exact ⟨d, hmem, hid⟩

/-- Witness for C3: closing the non-primary window first does not
signal exit; the run signals exit only once the primary window's
`Closed` event arrives. -/
theorem exit_on_primary_closed_iff_primary_closed_witness :
    (runTicks .OnPrimaryClosed
      [{ id := 0, primary := true }, { id := 1, primary := false }]
      [[1], [0]]).isSome = true := by
  have h := exit_on_primary_closed_iff_primary_closed [[1], [0]]
    [{ id := 0, primary := true }, { id := 1, primary := false }]
    { id := 0, primary := true } (by decide) rfl (by decide)
  exact h.mpr (by decide)

/-- Claim C6: starting from an app with no primary-marked entity, at
every intermediate state of `WindowPlugin::build` — and in its final
state — at most one entity carries the `PrimaryWindow` marker, for
every plugin configuration. -/
theorem primary_marker_at_most_one (p : WindowPlugin) (a : App)
    (h : primaryCount a = 0) :
    ∀ s ∈ buildStates p a, primaryCount s ≤ 1 := by
  intro s hs
  have h1 : primaryCount (addEventsStep a) = 0 := by
    rw [primaryCount_addEventsStep]
    exact h
  have h2 : primaryCount (spawnPrimaryStep p (addEventsStep a)) ≤ 1 := by
    have := primaryCount_spawnPrimaryStep p (addEventsStep a)
    omega
  have h3 : primaryCount
      (exitConditionStep p (spawnPrimaryStep p (addEventsStep a))) ≤ 1 := by
    rw [primaryCount_exitConditionStep]
    exact h2
  have h4 : primaryCount (closeWhenRequestedStep p
      (exitConditionStep p (spawnPrimaryStep p (addEventsStep a)))) ≤ 1 := by
    rw [primaryCount_closeWhenRequestedStep]
    exact h3
  cases hw : p.primary_window with
  | none =>
    simp only [buildStates, hw, List.nil_append, List.mem_cons,
      List.not_mem_nil, or_false] at hs
    rcases hs with rfl | rfl | rfl | rfl
    · omega
    · omega
    · exact h3
    · exact h4
  | some w =>
    have hs1 : primaryCount ((addEventsStep a).spawnWindow w) = 0 := by
      rw [primaryCount_spawnWindow]
      exact h1
    have hs2 : primaryCount
        ((addEventsStep a).spawnWindow w).insertPrimaryAndHolder ≤ 1 := by
      have := primaryCount_insertPrimaryAndHolder ((addEventsStep a).spawnWindow w)
      omega
    cases hc : p.primary_cursor_options with
    | none =>
      simp only [buildStates, hw, hc, List.cons_append, List.nil_append,
        List.mem_cons, List.not_mem_nil, or_false] at hs
      rcases hs with rfl | rfl | rfl | rfl | rfl | rfl
      · omega
      · omega
      · omega
      · exact hs2
      · exact h3
      · exact h4
    | some copt =>
      have hs3 : primaryCount
          ((((addEventsStep a).spawnWindow w).insertPrimaryAndHolder).insertCursor
            copt) ≤ 1 := by
        rw [primaryCount_insertCursor]
        exact hs2
      simp only [buildStates, hw, hc, List.cons_append, List.nil_append,
        List.mem_cons, List.not_mem_nil, or_false] at hs
      rcases hs with rfl | rfl | rfl | rfl | rfl | rfl | rfl
      · omega
      · omega
      · omega
      · exact hs2
      · exact hs3
      · exact h3
      · exact h4

/-- Witness for C6: the final state of building the default plugin on
a fresh app has exactly at most one primary-marked entity. -/
theorem primary_marker_at_most_one_witness :
    primaryCount (build WindowPlugin.default App.empty) ≤ 1 := by
  have h := primary_marker_at_most_one WindowPlugin.default App.empty rfl
  exact h (build WindowPlugin.default App.empty) (by decide)

end BevyWindow
